import Mathlib

/-!
Verification of the traffic-privacy demo's two algorithmic components,
embedded over exact rationals (`ℚ` stands in for IEEE doubles; every
constant used by the claims is an exact decimal, and every comparison
decided here agrees with its floating-point counterpart at the inputs
involved):

* the grid aggregator `analyze_congestion_patterns` from
  `infrastructure_src/analyze.py` (bounding box, `np.linspace` bin edges,
  `np.digitize` bin assignment with clamping, hotspot thresholding);
* the route generator `simulate_driver_route` / `generate_traffic_data`
  from `infrastructure_src/generate.py` (piecewise commute interpolation
  with congestion-window time dilation).

Timestamps are modelled as rational hours since the 2024-01-01 midnight
epoch; `pandas` `Timedelta` nanosecond truncation (sub-second) is ignored,
as every temporal fact below holds with margins of minutes.
Fallible operations (`np.min` on a zero-size array, Python `/` with zero
denominator, `DataFrame` column access on an empty frame) are modelled
with `Option` / `Except`.
-/

/-! ## Grid aggregator: `analyze.py`, `analyze_congestion_patterns` -/

/-- `grid_size = 10` from `analyze.py`. -/
def gridSize : ℕ := 10

/-- `np.linspace a b num`: `num` evenly spaced values from `a` to `b`
inclusive, step `(b - a) / (num - 1)`.  In `ℚ` the final value equals `b`
exactly, matching numpy's exact-endpoint behaviour. -/
def linspace (a b : ℚ) (num : ℕ) : List ℚ :=
  (List.range num).map (fun k => a + (k : ℚ) * ((b - a) / ((num : ℚ) - 1)))

/-- `np.digitize x bins` for monotonically non-decreasing `bins` with the
default `right=False`, i.e. `np.searchsorted(bins, x, side='right')`: the
number of bin edges `≤ x`.  (numpy accepts all-equal bin edges as
monotonic: its `check_array_monotonic` returns 1 when every edge holds the
same value.) -/
def digitize (x : ℚ) (bins : List ℚ) : ℕ :=
  bins.countP (fun b => decide (b ≤ x))

/-- One axis of the bin assignment in `analyze.py`:
`idx = np.digitize(coord, bins) - 1` followed by the clamp
`max(0, min(idx, grid_size - 1))`. -/
def cellIdx (x : ℚ) (bins : List ℚ) : ℕ :=
  (max 0 (min ((digitize x bins : ℤ) - 1) ((gridSize : ℤ) - 1))).toNat

/-- `congestion_grid[lat_idx, lon_idx] += 1`: bump a single cell of a grid
represented as a function on index pairs. -/
def bump (g : ℕ → ℕ → ℕ) (i j : ℕ) : ℕ → ℕ → ℕ :=
  fun a b => if a = i ∧ b = j then g a b + 1 else g a b

/-- The point-counting loop of `analyze.py`: start from `np.zeros`, and for
each coordinate pair increment the cell selected by the clamped digitize
indices of its latitude and longitude. -/
def buildGrid (ps : List (ℚ × ℚ)) (latBins lonBins : List ℚ) : ℕ → ℕ → ℕ :=
  ps.foldl (fun g c => bump g (cellIdx c.1 latBins) (cellIdx c.2 lonBins))
    (fun _ _ => 0)

/-- `np.max(congestion_grid)`: maximum over the flattened (row-major)
`gridSize × gridSize` array of cell counts. -/
def gridMax (g : ℕ → ℕ → ℕ) : ℕ :=
  ((List.range gridSize).flatMap (fun i => (List.range gridSize).map (g i))).foldl max 0

/-- `(bins[i] + bins[i+1]) / 2`: midpoint of the `i`-th bin's edges. -/
def midEdge (bins : List ℚ) (i : ℕ) : ℚ :=
  (bins.getD i 0 + bins.getD (i + 1) 0) / 2

/-- One entry of the `hotspots` list built by `analyze.py`. -/
structure Hotspot where
  latitude : ℚ
  longitude : ℚ
  congestion_level : ℚ
deriving DecidableEq, Repr

/-- The hotspot scan of `analyze.py`: for `i` in `range(grid_size)`, for `j`
in `range(grid_size)`, if `congestion_grid[i, j] >= hotspot_threshold`
append the midpoint coordinates and the raw count. -/
def hotspotsOf (g : ℕ → ℕ → ℕ) (thr : ℚ) (latBins lonBins : List ℚ) : List Hotspot :=
  (List.range gridSize).flatMap (fun i =>
    (List.range gridSize).filterMap (fun j =>
      if thr ≤ (g i j : ℚ) then
        some { latitude := midEdge latBins i
               longitude := midEdge lonBins j
               congestion_level := (g i j : ℚ) }
      else none))

/-- The dictionary returned by `analyze_congestion_patterns`. -/
structure AnalysisResult where
  total_gps_points : ℕ
  avg_lat : ℚ
  avg_lon : ℚ
  congestion_grid : ℕ → ℕ → ℕ
  hotspots : List Hotspot
  lat_min : ℚ
  lat_max : ℚ
  lon_min : ℚ
  lon_max : ℚ

/-- Body of `analyze_congestion_patterns` on a non-empty coordinate list
`p :: rest` (the branch in which `np.min` / `np.max` do not raise).
`lat_min = np.min(coords[:, 0])` is the fold of `min` over the latitudes
started at the head, and likewise for the other three bounds; the bin
edges, grid fill, maximum, threshold `max * 0.7` and hotspot scan follow
the source line by line.  `avg_lat` / `avg_lon` are `np.mean`: sum divided
by length. -/
def analyzeNE (p : ℚ × ℚ) (rest : List (ℚ × ℚ)) : AnalysisResult :=
  let ps := p :: rest
  let lat_min := (rest.map Prod.fst).foldl min p.1
  let lat_max := (rest.map Prod.fst).foldl max p.1
  let lon_min := (rest.map Prod.snd).foldl min p.2
  let lon_max := (rest.map Prod.snd).foldl max p.2
  let lat_bins := linspace lat_min lat_max (gridSize + 1)
  let lon_bins := linspace lon_min lon_max (gridSize + 1)
  let grid := buildGrid ps lat_bins lon_bins
  let max_congestion := gridMax grid
  let hotspot_threshold : ℚ := (max_congestion : ℚ) * 0.7
  { total_gps_points := ps.length
    avg_lat := (ps.map Prod.fst).foldl (· + ·) 0 / (ps.length : ℚ)
    avg_lon := (ps.map Prod.snd).foldl (· + ·) 0 / (ps.length : ℚ)
    congestion_grid := grid
    hotspots := hotspotsOf grid hotspot_threshold lat_bins lon_bins
    lat_min := lat_min
    lat_max := lat_max
    lon_min := lon_min
    lon_max := lon_max }

/-- `analyze_congestion_patterns(all_coords, driver_ids)` from `analyze.py`.
`driver_ids` is accepted but never read, exactly as in the source.  On an
empty coordinate array `np.min` raises
`ValueError: zero-size array to reduction operation minimum which has no
identity`; that exception is modelled as `none`. -/
def analyze_congestion_patterns : List (ℚ × ℚ) → List ℤ → Option AnalysisResult
  | [], _ => none
  | p :: rest, _ => some (analyzeNE p rest)

/-- The concrete input of the spec's degenerate-bbox scenario: three points
all at `(40.0000, -74.0000)`. -/
def threePoints : List (ℚ × ℚ) := [(40, -74), (40, -74), (40, -74)]

/-- Total number of points recorded in a grid. -/
def gridTotal (g : ℕ → ℕ → ℕ) : ℕ :=
  ∑ i in Finset.range gridSize, ∑ j in Finset.range gridSize, g i j

/-! ## Route generator: `generate.py`, `simulate_driver_route` -/

/-- The random draws consumed by one call of `simulate_driver_route`,
made injectable: the four `random.uniform` jitters fixing the home and
work coordinates, and the per-point `random.uniform(-0.001, 0.001)` /
`random.uniform(-0.005, 0.005)` positional noise of the morning, workday
and evening segments.  No timestamp depends on any of these draws. -/
structure Rng where
  homeLatJ : ℚ
  homeLonJ : ℚ
  workLatJ : ℚ
  workLonJ : ℚ
  mLatN : ℕ → ℚ
  mLonN : ℕ → ℚ
  wLatN : ℕ → ℚ
  wLonN : ℕ → ℚ
  eLatN : ℕ → ℚ
  eLonN : ℕ → ℚ

/-- All random draws zero: the deterministic centre of every jitter range. -/
def zeroRng : Rng :=
  ⟨0, 0, 0, 0, fun _ => 0, fun _ => 0, fun _ => 0, fun _ => 0, fun _ => 0, fun _ => 0⟩

/-- Morning congestion window: `0.3 < t < 0.7` (`generate.py`, morning
commute, "Middle of commute = peak congestion"). -/
abbrev inMorningWindow (t : ℚ) : Prop := 0.3 < t ∧ t < 0.7

/-- Evening congestion window: `0.2 < t < 0.8` (`generate.py`, evening
commute, "Simulate evening congestion"). -/
abbrev inEveningWindow (t : ℚ) : Prop := 0.2 < t ∧ t < 0.8

/-- The interpolation parameter `t = i / (num_points - 1)` of both commute
loops, at the source's fixed `num_points = 20`. -/
def tParam (i : ℕ) : ℚ := (i : ℚ) / 19

/-- Morning elapsed time (hours) of point `i`:
`time_offset = commute_duration * t` with `commute_duration = 2` hours,
then `time_offset = time_offset * 1.5` when `0.3 < t < 0.7`. -/
def morningOffset (i : ℕ) : ℚ :=
  if inMorningWindow (tParam i) then 2 * tParam i * 1.5 else 2 * tParam i

/-- Evening elapsed time (hours) of point `i`:
`time_offset = evening_commute_duration * t` with duration 2 hours, then
`time_offset = time_offset * 1.3` when `0.2 < t < 0.8`. -/
def eveningOffset (i : ℕ) : ℚ :=
  if inEveningWindow (tParam i) then 2 * tParam i * 1.3 else 2 * tParam i

/-- Python `/` on numbers: raises `ZeroDivisionError` when the denominator
is zero, modelled as `none`. -/
def pydiv (a b : ℚ) : Option ℚ := if b = 0 then none else some (a / b)

/-- The commute-loop interpolation parameter `t = i / (num_points - 1)`
with the point count left as the parameter the spec discusses (the source
fixes it to 20). -/
def interpParam (num_points i : ℕ) : Option ℚ :=
  pydiv (i : ℚ) ((num_points : ℚ) - 1)

/-- All interpolation parameters of one commute segment with
`num_points` points: `t = i / (num_points - 1)` for `i` in
`range(num_points)`; `none` as soon as any `t` raises. -/
def commuteParams (num_points : ℕ) : Option (List ℚ) :=
  (List.range num_points).mapM (interpParam num_points)

/-- `simulate_driver_route(driver_id, start_time)` from `generate.py`,
with the random draws passed explicitly.  `start_time` is a midnight
timestamp in hours since the 2024-01-01 epoch (that is the only value the
caller ever passes), so `start_time.replace(hour=7, minute=0)` is
`start_time + 7`.  Morning: 20 points interpolated home→work with offsets
`morningOffset`; workday: `for hour in range(8): for minute in
range(0, 60, 15)` (i.e. `minute = 15 * q`, `q < 4`) jittered around work;
evening: 20 points work→home with offsets `eveningOffset`.  `driver_id`
is unused by the source body. -/
def simulate_driver_route (driver_id : ℤ) (rng : Rng) (start_time : ℚ) :
    List (ℚ × ℚ × ℚ) :=
  let home_lat := 40.7128 + rng.homeLatJ
  let home_lon := -74.0060 + rng.homeLonJ
  let work_lat := 40.7589 + rng.workLatJ
  let work_lon := -73.9851 + rng.workLonJ
  let morning_start := start_time + 7
  let commute_duration : ℚ := 2
  let morning := (List.range 20).map (fun i =>
    (home_lat + tParam i * (work_lat - home_lat) + rng.mLatN i,
     home_lon + tParam i * (work_lon - home_lon) + rng.mLonN i,
     morning_start + morningOffset i))
  let work_start := morning_start + commute_duration
  let workday := (List.range 8).flatMap (fun hour =>
    (List.range 4).map (fun q =>
      (work_lat + rng.wLatN (4 * hour + q),
       work_lon + rng.wLonN (4 * hour + q),
       work_start + (hour : ℚ) + (15 * q : ℚ) / 60)))
  let evening_start := work_start + 8
  let evening := (List.range 20).map (fun i =>
    (work_lat + tParam i * (home_lat - work_lat) + rng.eLatN i,
     work_lon + tParam i * (home_lon - work_lon) + rng.eLonN i,
     evening_start + eveningOffset i))
  morning ++ workday ++ evening

/-- The timestamp column of a simulated route. -/
def routeTimestamps (driver_id : ℤ) (rng : Rng) (start_time : ℚ) : List ℚ :=
  (simulate_driver_route driver_id rng start_time).map (fun p => p.2.2)

/-- Python `range(n)` for a possibly non-positive integer bound: empty
whenever `n ≤ 0`. -/
def pyrange (n : ℤ) : List ℤ := (List.range n.toNat).map (fun k => (k : ℤ))

/-- One row of the DataFrame built by `generate_traffic_data`. -/
structure TrafficRow where
  driver_id : ℤ
  latitude : ℚ
  longitude : ℚ
  timestamp : ℚ

/-- `generate_traffic_data(num_drivers, simulation_days)` from
`generate.py`, with the per-driver/per-day random draws passed explicitly.
`day_start = Timestamp('2024-01-01') + Timedelta(days=day)` is the hour
value `24 * day`.  The function performs no input validation: the loops
simply run over `range(num_drivers)` / `range(simulation_days)`, and the
final statistics line `len(df['driver_id'].unique())` raises
`KeyError: 'driver_id'` when the collected row list is empty (an empty
`DataFrame` has no columns); that exception is the `Except.error` case. -/
def generate_traffic_data (num_drivers simulation_days : ℤ)
    (rngF : ℤ → ℤ → Rng) : Except String (List TrafficRow) :=
  let all_data := (pyrange num_drivers).flatMap (fun d =>
    (pyrange simulation_days).flatMap (fun day =>
      (simulate_driver_route d (rngF d day) (24 * (day : ℚ))).map (fun p =>
        { driver_id := d, latitude := p.1, longitude := p.2.1,
          timestamp := p.2.2 })))
  if all_data.isEmpty then Except.error "KeyError" else Except.ok all_data

/-- The hotspot contract of the aggregator, phrased over the returned
result: a cell's record is listed iff its count reaches `0.7` of the
maximum cell count, and every listed record carries the midpoint of its
cell's bin edges and the cell's raw count as `congestion_level`. -/
def hotspotSpec (r : AnalysisResult) : Prop :=
  (∀ i j, i < gridSize → j < gridSize →
    (({ latitude := midEdge (linspace r.lat_min r.lat_max (gridSize + 1)) i,
        longitude := midEdge (linspace r.lon_min r.lon_max (gridSize + 1)) j,
        congestion_level := (r.congestion_grid i j : ℚ) } : Hotspot) ∈ r.hotspots
      ↔ (gridMax r.congestion_grid : ℚ) * 0.7 ≤ (r.congestion_grid i j : ℚ)))
  ∧ (∀ h ∈ r.hotspots, ∃ i j, i < gridSize ∧ j < gridSize ∧
      h.congestion_level = (r.congestion_grid i j : ℚ) ∧
      (gridMax r.congestion_grid : ℚ) * 0.7 ≤ h.congestion_level ∧
      h.latitude = midEdge (linspace r.lat_min r.lat_max (gridSize + 1)) i ∧
      h.longitude = midEdge (linspace r.lon_min r.lon_max (gridSize + 1)) j)

/-! ## Helper lemmas -/

/-- A degenerate bounding box (`min = max`) yields constant bin edges:
every one of the `gridSize + 1` evenly spaced values equals the bound. -/
lemma linspace_const (a : ℚ) : linspace a a (gridSize + 1) = List.replicate 11 a := by
  have hr : List.range 11 = [0, 1, 2, 3, 4, 5, 6, 7, 8, 9, 10] := rfl
  norm_num [linspace, gridSize, hr, List.replicate]

/-- `np.digitize` of a value against eleven bin edges all equal to it
counts all eleven edges (`searchsorted` with `side='right'`). -/
lemma digitize_replicate_self (a : ℚ) : digitize a (List.replicate 11 a) = 11 := by
  simp [digitize, List.replicate, List.countP_cons]

/-- Hence the clamped cell index of that value is `9`, the last bin. -/
lemma cellIdx_replicate_self (a : ℚ) : cellIdx a (List.replicate 11 a) = 9 := by
  rw [cellIdx, digitize_replicate_self, gridSize]
  decide

/-- The grid built from the three identical points puts all three counts
in cell `(9, 9)`. -/
lemma threeGrid :
    buildGrid [(40, -74), (40, -74), (40, -74)]
        (List.replicate 11 40) (List.replicate 11 (-74))
      = fun a b => if a = 9 ∧ b = 9 then 3 else 0 := by
  funext a b
  simp only [buildGrid, List.foldl_cons, List.foldl_nil, cellIdx_replicate_self, bump]
  by_cases h : a = 9 ∧ b = 9 <;> simp [h]

set_option maxRecDepth 4000 in
lemma threeGridMax : gridMax (fun a b => if a = 9 ∧ b = 9 then 3 else 0) = 3 := by decide

/-- Scanning that grid at threshold `3 × 0.7 = 2.1` reports exactly the
one cell `(9, 9)`, whose bin midpoints are the original coordinates. -/
lemma threeHotspots :
    hotspotsOf (fun a b => if a = 9 ∧ b = 9 then 3 else 0) (21 / 10)
        (List.replicate 11 40) (List.replicate 11 (-74))
      = [{ latitude := 40, longitude := -74, congestion_level := 3 }] := by
  have hr : List.range gridSize = [0, 1, 2, 3, 4, 5, 6, 7, 8, 9] := rfl
  norm_num [hotspotsOf, hr, midEdge, List.replicate, List.filterMap_cons]

lemma mapM_eq_some_map {α β : Type} (f : α → Option β) (g : α → β) :
    ∀ l : List α, (∀ a ∈ l, f a = some (g a)) → l.mapM f = some (l.map g) := by
  intro l
  induction l with
  | nil => intro _; rfl
  | cons a l ih =>
    intro h
    rw [List.mapM_cons, h a (List.mem_cons_self a l),
      ih (fun b hb => h b (List.mem_cons_of_mem a hb))]
    rfl

/-- At the source's fixed count of 20 commute points the interpolation
parameter never divides by zero and equals `tParam`. -/
lemma interpParam_twenty (i : ℕ) : interpParam 20 i = some (tParam i) := by
  norm_num [interpParam, pydiv, tParam]

lemma morningOffset_in {i : ℕ} (h : inMorningWindow (tParam i)) :
    morningOffset i = 3 * i / 19 := by
  rw [morningOffset, if_pos h, tParam]; ring

lemma morningOffset_out {i : ℕ} (h : ¬ inMorningWindow (tParam i)) :
    morningOffset i = 2 * i / 19 := by
  rw [morningOffset, if_neg h, tParam]; ring

lemma eveningOffset_in {i : ℕ} (h : inEveningWindow (tParam i)) :
    eveningOffset i = 13 * i / (5 * 19) := by
  rw [eveningOffset, if_pos h, tParam]; ring

lemma eveningOffset_out {i : ℕ} (h : ¬ inEveningWindow (tParam i)) :
    eveningOffset i = 2 * i / 19 := by
  rw [eveningOffset, if_neg h, tParam]; ring

/-- The first twenty route timestamps are morning-commute timestamps:
`morning_start + morningOffset i` with `morning_start = 0 + 7`. -/
lemma routeTimestamps_morning {i : ℕ} (hi : i < 20) :
    (routeTimestamps 0 zeroRng 0).getD i 0 = 7 + morningOffset i := by
  simp only [routeTimestamps, simulate_driver_route, List.map_append, List.map_map,
    List.append_assoc]
  rw [List.getD_append _ _ _ _ (by simpa using hi)]
  rw [List.getD_eq_getElem?_getD, List.getElem?_map, List.getElem?_range hi]
  simp [zeroRng]

/-- Each clamped bin index lands strictly below `gridSize`. -/
lemma cellIdx_lt (x : ℚ) (bins : List ℚ) : cellIdx x bins < gridSize := by
  have h : (max 0 (min ((digitize x bins : ℤ) - 1) ((gridSize : ℤ) - 1)))
      ≤ (gridSize : ℤ) - 1 := by
    apply max_le
    · simp [gridSize]
    · exact min_le_right _ _
  have h2 : cellIdx x bins ≤ gridSize - 1 := by
    rw [cellIdx]; omega
  have h3 : 0 < gridSize := by norm_num [gridSize]
  omega

lemma sum_indicator_pair {i j : ℕ} (hi : i < gridSize) (hj : j < gridSize) :
    (∑ a in Finset.range gridSize, ∑ b in Finset.range gridSize,
      if a = i ∧ b = j then (1 : ℕ) else 0) = 1 := by
  have h1 : ∀ a : ℕ, (∑ b in Finset.range gridSize, if a = i ∧ b = j then (1 : ℕ) else 0)
      = if a = i then 1 else 0 := by
    intro a
    by_cases ha : a = i
    · subst ha
      simp [Finset.sum_ite_eq', Finset.mem_range.mpr hj]
    · simp [ha]
  rw [Finset.sum_congr rfl (fun a _ => h1 a)]
  simp [Finset.sum_ite_eq', Finset.mem_range.mpr hi]

/-- Incrementing one in-range cell raises the total count by one. -/
lemma gridTotal_bump (g : ℕ → ℕ → ℕ) {i j : ℕ} (hi : i < gridSize) (hj : j < gridSize) :
    gridTotal (bump g i j) = gridTotal g + 1 := by
  unfold gridTotal bump
  have h : ∀ a b : ℕ, (if a = i ∧ b = j then g a b + 1 else g a b)
      = g a b + (if a = i ∧ b = j then 1 else 0) := by
    intro a b; split <;> simp
  simp only [h, Finset.sum_add_distrib]
  rw [sum_indicator_pair hi hj]

lemma gridTotal_foldl (latBins lonBins : List ℚ) :
    ∀ (ps : List (ℚ × ℚ)) (g : ℕ → ℕ → ℕ),
      gridTotal (ps.foldl (fun g c => bump g (cellIdx c.1 latBins) (cellIdx c.2 lonBins)) g)
        = gridTotal g + ps.length := by
  intro ps
  induction ps with
  | nil => simp
  | cons p rest ih =>
    intro g
    rw [List.foldl_cons, ih, gridTotal_bump g (cellIdx_lt _ _) (cellIdx_lt _ _),
      List.length_cons]
    omega

/-- Every input point is counted in exactly one grid cell. -/
lemma gridTotal_buildGrid (ps : List (ℚ × ℚ)) (latBins lonBins : List ℚ) :
    gridTotal (buildGrid ps latBins lonBins) = ps.length := by
  rw [buildGrid, gridTotal_foldl]
  simp [gridTotal]

/-- A record is in the hotspot scan's output iff it is the record of some
in-range cell whose count reaches the threshold. -/
lemma mem_hotspotsOf {g : ℕ → ℕ → ℕ} {thr : ℚ} {latBins lonBins : List ℚ} {h : Hotspot} :
    h ∈ hotspotsOf g thr latBins lonBins ↔
    ∃ i j, i < gridSize ∧ j < gridSize ∧ thr ≤ (g i j : ℚ) ∧
      h = { latitude := midEdge latBins i, longitude := midEdge lonBins j,
            congestion_level := (g i j : ℚ) } := by
  simp only [hotspotsOf, List.mem_flatMap, List.mem_filterMap, List.mem_range]
  constructor
  · rintro ⟨i, hi, j, hj, hsome⟩
    by_cases hc : thr ≤ (g i j : ℚ)
    · rw [if_pos hc] at hsome
      exact ⟨i, j, hi, hj, hc, (Option.some_inj.mp hsome).symm⟩
    · rw [if_neg hc] at hsome
      simp at hsome
  · rintro ⟨i, j, hi, hj, hc, rfl⟩
    exact ⟨i, hi, j, hj, by rw [if_pos hc]⟩

lemma analyzeNE_hotspots_eq (p : ℚ × ℚ) (rest : List (ℚ × ℚ)) :
    (analyzeNE p rest).hotspots = hotspotsOf (analyzeNE p rest).congestion_grid
      ((gridMax (analyzeNE p rest).congestion_grid : ℚ) * 0.7)
      (linspace (analyzeNE p rest).lat_min (analyzeNE p rest).lat_max (gridSize + 1))
      (linspace (analyzeNE p rest).lon_min (analyzeNE p rest).lon_max (gridSize + 1)) := rfl

lemma analyzeNE_grid_eq (p : ℚ × ℚ) (rest : List (ℚ × ℚ)) :
    (analyzeNE p rest).congestion_grid = buildGrid (p :: rest)
      (linspace (analyzeNE p rest).lat_min (analyzeNE p rest).lat_max (gridSize + 1))
      (linspace (analyzeNE p rest).lon_min (analyzeNE p rest).lon_max (gridSize + 1)) := rfl

lemma le_foldl_max_init : ∀ (l : List ℕ) (a : ℕ), a ≤ l.foldl max a := by
  intro l
  induction l with
  | nil => simp
  | cons x xs ih =>
    intro a
    rw [List.foldl_cons]
    exact le_trans (le_max_left a x) (ih (max a x))

lemma mem_le_foldl_max : ∀ (l : List ℕ) (a x : ℕ), x ∈ l → x ≤ l.foldl max a := by
  intro l
  induction l with
  | nil => intro a x hx; simp at hx
  | cons y ys ih =>
    intro a x hx
    rw [List.foldl_cons]
    rcases List.mem_cons.mp hx with rfl | hx
    · exact le_trans (le_max_right a x) (le_foldl_max_init ys (max a x))
    · exact ih (max a y) x hx

lemma foldl_max_mem : ∀ (l : List ℕ) (a : ℕ), l.foldl max a = a ∨ l.foldl max a ∈ l := by
  intro l
  induction l with
  | nil => intro a; left; rfl
  | cons x xs ih =>
    intro a
    rw [List.foldl_cons]
    rcases ih (max a x) with h | h
    · rcases max_cases a x with ⟨he, _⟩ | ⟨he, _⟩
      · left; rw [h, he]
      · right; rw [h, he]; exact List.mem_cons_self x xs
    · right; exact List.mem_cons_of_mem x h

/-- `np.max` over the grid is attained at some in-range cell. -/
lemma gridMax_attained (g : ℕ → ℕ → ℕ) :
    ∃ i j, i < gridSize ∧ j < gridSize ∧ g i j = gridMax g := by
  rcases foldl_max_mem
      ((List.range gridSize).flatMap (fun i => (List.range gridSize).map (g i))) 0 with h | h
  · have hall : ∀ i j, i < gridSize → j < gridSize → g i j = 0 := by
      intro i j hi hj
      have hmem : g i j ∈
          (List.range gridSize).flatMap (fun i => (List.range gridSize).map (g i)) := by
        rw [List.mem_flatMap]
        exact ⟨i, List.mem_range.mpr hi, List.mem_map.mpr ⟨j, List.mem_range.mpr hj, rfl⟩⟩
      have hle := mem_le_foldl_max _ 0 _ hmem
      rw [h] at hle
      omega
    refine ⟨0, 0, by norm_num [gridSize], by norm_num [gridSize], ?_⟩
    rw [gridMax, h, hall 0 0 (by norm_num [gridSize]) (by norm_num [gridSize])]
  · rw [List.mem_flatMap] at h
    obtain ⟨i, hi, hmem⟩ := h
    obtain ⟨j, hj, hval⟩ := List.mem_map.mp hmem
    exact ⟨i, j, List.mem_range.mp hi, List.mem_range.mp hj, hval⟩

/-- The maximal cell itself always reaches the `0.7 × max` threshold. -/
lemma gridMax_le_self_cast (g : ℕ → ℕ → ℕ) {i j : ℕ} (h : g i j = gridMax g) :
    (gridMax g : ℚ) * 0.7 ≤ (g i j : ℚ) := by
  rw [h]
  have h0 : (0 : ℚ) ≤ (gridMax g : ℚ) := Nat.cast_nonneg _
  linarith

/-! ## Claim theorems -/

/-- Claim C1 (refuted; code bug): the aggregator does not special-case
the empty input.  `np.min` of a zero-size coordinate slice raises a
`ValueError`, modelled as `none`: no all-zero grid and no empty hotspot
list is ever returned. -/
theorem analyze_empty_raises : analyze_congestion_patterns [] [] = none := rfl

/-- Claim C2 (refuted; code bug): the route's timestamps are not
non-decreasing.  At the exit of the morning congestion window the scaled
cumulative offset of point 13 (`2h × 1.5 × 13/19 ≈ 2h03m`) exceeds the
unscaled offset of point 14 (`2h × 14/19 ≈ 1h28m`), so driver 0's route
for the 2024-01-01 day start (all random jitter zero) jumps backwards in
time between consecutive morning points 13 and 14. -/
theorem route_timestamps_not_monotone :
    (routeTimestamps 0 zeroRng 0).getD 14 0 < (routeTimestamps 0 zeroRng 0).getD 13 0 := by
  rw [routeTimestamps_morning (by norm_num), routeTimestamps_morning (by norm_num)]
  have h13 : morningOffset 13 = 39 / 19 := by
    norm_num [morningOffset, tParam, inMorningWindow]
  have h14 : morningOffset 14 = 28 / 19 := by
    norm_num [morningOffset, tParam, inMorningWindow]
  rw [h13, h14]
  norm_num

/-- Claim C3, counterexample: for three identical points at
`(40, -74)`, the claim "every point is assigned to bin 0 on each axis /
all three land in cell (0, 0)" is false: the degenerate bin edges are all
equal to the coordinate, `np.digitize` returns 11, and the clamped index
is 9, so cell `(0, 0)` holds count 0, not 3. -/
theorem three_identical_points_not_cell_zero :
    cellIdx 40 (linspace 40 40 (gridSize + 1)) = 9 ∧
    (analyze_congestion_patterns threePoints []).map (fun r => r.congestion_grid 0 0)
      = some 0 := by
  constructor
  · rw [linspace_const, cellIdx_replicate_self]
  · simp only [analyze_congestion_patterns, threePoints, Option.map_some]
    simp only [analyzeNE, List.map_cons, List.map_nil, List.foldl_cons, List.foldl_nil,
      min_self, max_self, linspace_const, threeGrid]
    norm_num

/-- Claim C3, amended: for the three identical points the three counts
land in cell `(9, 9)` (the last bin, after clamping the digitize index
10); the maximum cell count is 3, the threshold is `2.1`, and the hotspot
list is exactly `[{lat 40, lon -74, congestion_level 3}]` as the claim
states. -/
theorem three_identical_points_amended :
    ∃ r, analyze_congestion_patterns threePoints [] = some r ∧
      r.congestion_grid 9 9 = 3 ∧ r.congestion_grid 0 0 = 0 ∧
      gridMax r.congestion_grid = 3 ∧
      (gridMax r.congestion_grid : ℚ) * 0.7 = 21 / 10 ∧
      r.hotspots = [{ latitude := 40, longitude := -74, congestion_level := 3 }] := by
  refine ⟨analyzeNE (40, -74) [(40, -74), (40, -74)], rfl, ?_⟩
  simp only [analyzeNE, List.map_cons, List.map_nil, List.foldl_cons, List.foldl_nil,
    min_self, max_self, linspace_const, threeGrid, threeGridMax]
  norm_num [threeHotspots]

/-- Claim C4 (confirmed): for every non-empty input, a cell's record is
in the hotspot list iff its count is `≥ 0.7 ×` the maximum cell count,
and every listed hotspot carries its cell's raw count (hence `≥ 0.7 ×`
max) and the midpoints of its cell's bin edges as coordinates. -/
theorem hotspot_membership_iff :
    ∀ (ps : List (ℚ × ℚ)) (dids : List ℤ), ps ≠ [] →
    ∃ r, analyze_congestion_patterns ps dids = some r ∧ hotspotSpec r := by
  intro ps dids hne
  cases ps with
  | nil => exact absurd rfl hne
  | cons p rest =>
    refine ⟨analyzeNE p rest, rfl, ?_, ?_⟩
    · intro i j hi hj
      rw [analyzeNE_hotspots_eq, mem_hotspotsOf]
      constructor
      · rintro ⟨i', j', _, _, hthr, heq⟩
        have hlev : ((analyzeNE p rest).congestion_grid i j : ℚ)
            = ((analyzeNE p rest).congestion_grid i' j' : ℚ) :=
          congrArg Hotspot.congestion_level heq
        rw [hlev]
        exact hthr
      · intro hthr
        exact ⟨i, j, hi, hj, hthr, rfl⟩
    · intro h hmem
      rw [analyzeNE_hotspots_eq, mem_hotspotsOf] at hmem
      obtain ⟨i, j, hi, hj, hthr, rfl⟩ := hmem
      exact ⟨i, j, hi, hj, rfl, hthr, rfl, rfl⟩

/-- Witness for C4 at the one-point input `[(1, 2)]`. -/
theorem hotspot_membership_iff_witness :
    ([((1 : ℚ), (2 : ℚ))] ≠ []) ∧
    ∃ r, analyze_congestion_patterns [((1 : ℚ), (2 : ℚ))] [] = some r ∧ hotspotSpec r :=
  ⟨by simp, hotspot_membership_iff [((1 : ℚ), (2 : ℚ))] [] (by simp)⟩

/-- Claim C5 (confirmed): for every non-empty input the grid's cell
counts sum to the number of input points — each point is counted in
exactly one cell, its clamped bin indices lying in `[0, gridSize)`. -/
theorem grid_counts_sum_to_length :
    ∀ (ps : List (ℚ × ℚ)) (dids : List ℤ), ps ≠ [] →
    ∃ r, analyze_congestion_patterns ps dids = some r ∧
      (∑ i in Finset.range gridSize, ∑ j in Finset.range gridSize,
        r.congestion_grid i j) = ps.length := by
  intro ps dids hne
  cases ps with
  | nil => exact absurd rfl hne
  | cons p rest =>
    refine ⟨analyzeNE p rest, rfl, ?_⟩
    show gridTotal (analyzeNE p rest).congestion_grid = (p :: rest).length
    rw [analyzeNE_grid_eq, gridTotal_buildGrid]

/-- Witness for C5 at the one-point input `[(0, 1)]`. -/
theorem grid_counts_sum_to_length_witness :
    ([((0 : ℚ), (1 : ℚ))] ≠ []) ∧
    ∃ r, analyze_congestion_patterns [((0 : ℚ), (1 : ℚ))] [] = some r ∧
      (∑ i in Finset.range gridSize, ∑ j in Finset.range gridSize,
        r.congestion_grid i j) = [((0 : ℚ), (1 : ℚ))].length :=
  ⟨by simp, grid_counts_sum_to_length [((0 : ℚ), (1 : ℚ))] [] (by simp)⟩

/-- Claim C6 (refuted; code bug): for non-positive driver or day counts
the generator performs no input validation.  The loops run zero times and
the function then fails computing `df['driver_id']` on an empty,
column-less DataFrame — a late `KeyError`, not a fast validation error
(no rows are returned, so the no-partial-output part does hold). -/
theorem generate_nonpositive_keyerror :
    ∀ (nd sd : ℤ) (rngF : ℤ → ℤ → Rng), nd ≤ 0 ∨ sd ≤ 0 →
      generate_traffic_data nd sd rngF = Except.error "KeyError" := by
  intro nd sd rngF h
  rw [generate_traffic_data]
  rcases h with h | h
  · simp [pyrange, Int.toNat_of_nonpos h]
  · simp [pyrange, Int.toNat_of_nonpos h]

/-- Witness for C6 at `num_drivers = 0`, `simulation_days = 1`. -/
theorem generate_nonpositive_keyerror_witness :
    ((0 : ℤ) ≤ 0 ∨ (1 : ℤ) ≤ 0) ∧
    generate_traffic_data 0 1 (fun _ _ => zeroRng) = Except.error "KeyError" :=
  ⟨Or.inl le_rfl, generate_nonpositive_keyerror 0 1 (fun _ _ => zeroRng) (Or.inl le_rfl)⟩

/-- Claim C7 (refuted; code bug): the aggregator has no rejection path
for malformed coordinates — every non-empty input is processed to a
result, so no validation error is ever raised. -/
theorem analyze_accepts_all_nonempty :
    ∀ (ps : List (ℚ × ℚ)) (dids : List ℤ), ps ≠ [] →
      (analyze_congestion_patterns ps dids).isSome = true := by
  intro ps dids hne
  cases ps with
  | nil => exact absurd rfl hne
  | cons p rest => rfl

/-- Witness for C7 at the one-point input `[(0, 0)]`. -/
theorem analyze_accepts_all_nonempty_witness :
    ([((0 : ℚ), (0 : ℚ))] ≠ []) ∧
    (analyze_congestion_patterns [((0 : ℚ), (0 : ℚ))] []).isSome = true :=
  ⟨by simp, analyze_accepts_all_nonempty [((0 : ℚ), (0 : ℚ))] [] (by simp)⟩

/-- Claim C8 (refuted; code bug): with a single commute point the
interpolation parameter `t = i / (num_points - 1)` is `0 / 0`, a Python
`ZeroDivisionError`; the source's fixed count of 20 commute points never
triggers it (`t = i / 19 = tParam i` throughout). -/
theorem interp_single_point_div_zero :
    commuteParams 1 = none ∧
    commuteParams 20 = some ((List.range 20).map tParam) := by
  constructor
  · have hr : List.range 1 = [0] := rfl
    rw [commuteParams, hr, List.mapM_cons]
    norm_num [interpParam, pydiv]
  · exact mapM_eq_some_map _ _ _ (fun i _ => interpParam_twenty i)

/-- Claim C9 (confirmed): within each commute segment, the elapsed-time
delta between consecutive points both strictly inside the congestion
window (morning `3/19` h, evening `13/95` h) exceeds the delta between
consecutive points both outside it (`2/19` h), for the fixed uniform
positional spacing. -/
theorem congestion_window_deltas_exceed :
    (∀ i, i < 19 → ∀ j, j < 19 →
      inMorningWindow (tParam i) → inMorningWindow (tParam (i + 1)) →
      ¬ inMorningWindow (tParam j) → ¬ inMorningWindow (tParam (j + 1)) →
      morningOffset (j + 1) - morningOffset j < morningOffset (i + 1) - morningOffset i)
    ∧ (∀ i, i < 19 → ∀ j, j < 19 →
      inEveningWindow (tParam i) → inEveningWindow (tParam (i + 1)) →
      ¬ inEveningWindow (tParam j) → ¬ inEveningWindow (tParam (j + 1)) →
      eveningOffset (j + 1) - eveningOffset j < eveningOffset (i + 1) - eveningOffset i) := by
  constructor
  · intro i _ j _ hi1 hi2 hj1 hj2
    rw [morningOffset_in hi1, morningOffset_in hi2, morningOffset_out hj1,
      morningOffset_out hj2]
    push_cast
    ring_nf
    norm_num
  · intro i _ j _ hi1 hi2 hj1 hj2
    rw [eveningOffset_in hi1, eveningOffset_in hi2, eveningOffset_out hj1,
      eveningOffset_out hj2]
    push_cast
    ring_nf
    norm_num

/-- Witness for C9: morning in-window pair `(6, 7)` versus out-of-window
pair `(0, 1)`, and evening in-window pair `(4, 5)` versus `(0, 1)`. -/
theorem congestion_window_deltas_exceed_witness :
    (morningOffset 1 - morningOffset 0 < morningOffset 7 - morningOffset 6)
    ∧ (eveningOffset 1 - eveningOffset 0 < eveningOffset 5 - eveningOffset 4) :=
  ⟨congestion_window_deltas_exceed.1 6 (by norm_num) 0 (by norm_num)
      (by norm_num [inMorningWindow, tParam]) (by norm_num [inMorningWindow, tParam])
      (by norm_num [inMorningWindow, tParam]) (by norm_num [inMorningWindow, tParam]),
    congestion_window_deltas_exceed.2 4 (by norm_num) 0 (by norm_num)
      (by norm_num [inEveningWindow, tParam]) (by norm_num [inEveningWindow, tParam])
      (by norm_num [inEveningWindow, tParam]) (by norm_num [inEveningWindow, tParam])⟩

/-- Claim C10 (confirmed): for every non-empty input the hotspot list is
non-empty — the cell attaining the maximum count always satisfies
`count ≥ 0.7 × max`, so it is always reported. -/
theorem hotspots_nonempty :
    ∀ (ps : List (ℚ × ℚ)) (dids : List ℤ), ps ≠ [] →
    ∃ r, analyze_congestion_patterns ps dids = some r ∧ r.hotspots ≠ [] := by
  intro ps dids hne
  cases ps with
  | nil => exact absurd rfl hne
  | cons p rest =>
    refine ⟨analyzeNE p rest, rfl, ?_⟩
    obtain ⟨i, j, hi, hj, hmax⟩ := gridMax_attained (analyzeNE p rest).congestion_grid
    have hthr := gridMax_le_self_cast (analyzeNE p rest).congestion_grid hmax
    rw [analyzeNE_hotspots_eq]
    exact List.ne_nil_of_mem (mem_hotspotsOf.mpr ⟨i, j, hi, hj, hthr, rfl⟩)

/-- Witness for C10 at the one-point input `[(5, 6)]`. -/
theorem hotspots_nonempty_witness :
    ([((5 : ℚ), (6 : ℚ))] ≠ []) ∧
    ∃ r, analyze_congestion_patterns [((5 : ℚ), (6 : ℚ))] [] = some r ∧ r.hotspots ≠ [] :=
  ⟨by simp, hotspots_nonempty [((5 : ℚ), (6 : ℚ))] [] (by simp)⟩
